import Mathlib

/-!
Verification development for the `py-setup-tool` repository.

The repository consists of one interactive bootstrap script built around a
single class `ProjectSetup` (file `setup.py`).  This file gives a shallow
embedding of that script: file contents are `String`s, the working directory
is an association list of named files, interactive answers come from a queue,
printed text and spawned subprocesses are recorded in traces, and the outcome
of every external effect (OS identity, `git config`, subprocess exit codes)
is part of an explicit `World` state.  Numbered line references below are to
`setup.py`.
-/

namespace PySetup

/-! ## Models of the Python string primitives used by the script -/

/-- Characters treated as whitespace by Python `str.strip()` (ASCII range). -/
def pyIsSpace (c : Char) : Bool :=
  c = ' ' || c = '\t' || c = '\n' || c = '\r' || c = '\x0b' || c = '\x0c'

/-- Python `str.strip()` on the underlying character list: drop whitespace
from both ends. -/
def pyStripL (l : List Char) : List Char :=
  ((l.dropWhile pyIsSpace).reverse.dropWhile pyIsSpace).reverse

/-- Python `str.strip()`. -/
def pyStrip (s : String) : String :=
  String.mk (pyStripL s.data)

/-- Python `str.split(sep)` for a one-character separator, on character
lists.  `split` keeps empty fields, and splitting the empty string yields
one empty field. -/
def splitOnChar (sep : Char) : List Char → List (List Char)
  | [] => [[]]
  | c :: cs =>
    if c = sep then [] :: splitOnChar sep cs
    else
      match splitOnChar sep cs with
      | [] => [[c]]
      | h :: t => (c :: h) :: t

/-- Python `sep.join(parts)` for a one-character separator, on character
lists. -/
def joinChar (sep : Char) : List (List Char) → List Char
  | [] => []
  | [x] => x
  | x :: xs => x ++ sep :: joinChar sep xs

/-- Python `str.split(sep)` for a one-character separator. -/
def pySplit (s : String) (sep : Char) : List String :=
  (splitOnChar sep s.data).map String.mk

/-- Python `sep.join(parts)` for a one-character separator. -/
def pyJoin (sep : Char) (xs : List String) : String :=
  String.mk (joinChar sep (xs.map String.data))

/-- Python `str.lower()` (ASCII letters; the script only feeds it ASCII
package-tool names and path components). -/
def pyLower (s : String) : String :=
  String.mk (s.data.map Char.toLower)

/-- Python `str.replace(a, b)` where both pattern and replacement are a
single character: it acts characterwise. -/
def pyReplaceChar (s : String) (a b : Char) : String :=
  String.mk (s.data.map (fun c => if c = a then b else c))

/-- Python `str.replace(a, "")` for a one-character pattern: it deletes
every occurrence of the character. -/
def pyRemoveChar (s : String) (a : Char) : String :=
  String.mk (s.data.filter (fun c => c != a))

/-- Python substring containment `sub in s`. -/
def pyContains (s sub : String) : Bool :=
  decide (List.IsInfix sub.data s.data)

/-- Python `str.startswith(p)`. -/
def pyStartsWith (s p : String) : Bool :=
  List.isPrefixOf p.data s.data

/-- Python `str.endswith(p)`. -/
def pyEndsWith (s p : String) : Bool :=
  List.isSuffixOf p.data s.data

/-- Python `s or d` for strings: the empty string is falsy. -/
def pyOr (s d : String) : String :=
  if s = "" then d else s

/-- Python `x or d` where `x` is an optional string (`None` and `""` are
falsy). -/
def pyOrOpt (o : Option String) (d : String) : String :=
  match o with
  | none => d
  | some s => pyOr s d

/-! ## Pure text-processing functions of the script -/

/-- Marker scan of `_detect_project_tool` (setup.py lines 78-83): the
`if`/`elif` chain over the manifest text. -/
def detectToolText (contents : String) : Option String :=
  if pyContains contents "[tool.poetry]" then some "poetry"
  else if pyContains contents "[tool.hatch]" then some "hatch"
  else if pyContains contents "[tool.flit]" then some "flit"
  else none

/-- Body of `_convert_requirements_to_poetry` (lines 92-96) applied to the
text of `requirements.txt`: strip each line, keep the non-empty ones that do
not start with `#`, and join them with newlines. -/
def convertRequirementsText (content : String) : String :=
  pyJoin '\n' (((pySplit content '\n').map pyStrip).filter
    (fun l => l != "" && !(pyStartsWith l "#")))

/-- `_indent_dependencies` (lines 173-174): indent by four spaces every
line of the block whose stripped form is non-empty.  Python `splitlines`
is modelled by splitting on the newline character; the two differ only in
empty trailing fields, which the filter removes either way. -/
def _indent_dependencies (deps : String) : String :=
  pyJoin '\n' (((pySplit deps '\n').filter
    (fun d => pyStrip d != "")).map (fun d => "    " ++ d))

/-- `_strip_content` (lines 188-189): keep the lines whose stripped form is
non-empty, strip each and delete tab characters, and rejoin with newlines. -/
def _strip_content (content : String) : String :=
  pyJoin '\n' (((pySplit content '\n').filter
    (fun l => pyStrip l != "")).map (fun l => pyRemoveChar (pyStrip l) '\t'))

/-- The package-name normalization applied to a non-empty interactive
answer (line 107): `input.replace(" ", "-").lower().replace("-", "_")`. -/
def packageNameTransform (s : String) : String :=
  pyReplaceChar (pyLower (pyReplaceChar s ' ' '-')) '-' '_'

/-- `_dev_requirements_content` (lines 204-216), the literal triple-quoted
string of the source. -/
def _dev_requirements_content : String :=
  "\n            pytest\n            mypy\n            types-python-dateutil\n            build\n            toml\n            twine\n            wheel\n            pkginfo\n            hatchling\n            moto\n        "

/-- The Poetry `pyproject.toml` template (lines 124-141) after f-string
substitution, before `_strip_content`. -/
def poetryContent (pkg ver desc an ae depsIndented : String) : String :=
  "\n                [tool.poetry]\n                name = \"" ++ pkg ++
  "\"\n                version = \"" ++ ver ++
  "\"\n                description = \"" ++ desc ++
  "\"\n                authors = [\"" ++ an ++ " <" ++ ae ++
  ">\"]\n\n                [tool.poetry.dependencies]\n                python = \"^3.8\"\n" ++
  depsIndented ++
  "\n\n                [tool.poetry.dev-dependencies]\n                pytest = \"^7.0\"\n\n                [build-system]\n                requires = [\"poetry-core>=1.0.0\"]\n                build-backend = \"poetry.core.masonry.api\"\n            "

/-- The generic/Hatch `pyproject.toml` template (lines 144-166) after
f-string substitution, before `_strip_content`. -/
def hatchContent (pkg ver desc an ae buildSystem : String) : String :=
  "\n                [project]\n                name = \"" ++ pkg ++
  "\"\n                version = \"" ++ ver ++
  "\"\n                description = \"" ++ desc ++
  "\"\n                authors = [\x7bname=\"" ++ an ++ "\", email=\"" ++ ae ++
  "\"\x7d]\n                requires-python = \">=3.8\"\n\n                [tool.pytest.ini_options]\n                pythonpath = [\"src\"]\n                testpaths = [\"tests\", \"src\"]\n                markers = [\n                    \"integration: marks tests as integration (deselect with \x27-m \\\"not integration\\\"\x27)\"\n                ]\n                addopts = \"-m \x27not integration\x27\"\n\n                [build-system]\n                requires = [\"" ++ buildSystem ++
  "\"]\n                build-backend = \"" ++ buildSystem ++
  ".build\"\n\n                [tool.hatch.build.targets.wheel]\n                packages = [\"src/" ++ pkg ++ "\"]\n            "

/-! ## The world state

Every external effect of the script is explicit: the working directory's
files, created directories, answers queued on standard input, printed text,
the subprocess trace together with an oracle assigning each spawned
subprocess its exit code and captured output, and the ambient facts the
script queries (OS identity, `git config` results, interpreter paths). -/

/-- Outcome of one `subprocess.run(["git", "config", "--get", key], ...)`
invocation: either the call raises (`git` missing, any `Exception`), or it
runs and yields a return code and captured standard output. -/
inductive GitOutcome where
  | exc : GitOutcome
  | ran : Int → String → GitOutcome

/-- The explicit state of one run of the script. -/
structure World where
  /-- Files of the working directory: name, content (most recent first). -/
  files : List (String × String) := []
  /-- Directories created so far (`mkdir` / `makedirs` targets). -/
  dirs : List String := []
  /-- Everything printed so far, one entry per `print`/prompt. -/
  printed : List String := []
  /-- Queued interactive answers; an exhausted queue answers `""`. -/
  stdinQ : List String := []
  /-- Argument vectors of the subprocesses spawned so far (a shell pipeline
  is recorded as a single-element vector). -/
  trace : List (List String) := []
  /-- Oracle for subprocess outcomes, consumed in spawn order: return code
  and captured standard output.  An exhausted oracle means success. -/
  oracle : List (Int × String) := []
  /-- `os.uname().sysname`. -/
  sysname : String := "Linux"
  /-- `os.uname().machine`. -/
  machine : String := "x86_64"
  /-- Whether `/etc/debian_version` exists. -/
  debianFileExists : Bool := false
  /-- Base name of the current working directory (`Path(os.getcwd()).name`). -/
  cwdName : String := "proj"
  /-- Outcome of `git config --get` per key. -/
  gitCfg : String → GitOutcome := fun _ => GitOutcome.exc
  /-- Names in the script's own directory (`os.listdir(Path(__file__).parent)`). -/
  scriptDirFiles : List String := []
  /-- Whether `which("poetry")` finds the tool. -/
  whichPoetry : Bool := false
  /-- `platform.python_version()`. -/
  pythonVersion : String := "3.11.0"
  /-- `sys.executable`. -/
  sysExecutable : String := "/usr/bin/python3"
  /-- `sys.prefix`. -/
  sysPref : String := "/usr"
  /-- `sys.base_prefix` when the attribute exists (`getattr` fallback). -/
  basePref : Option String := none
  /-- `site.getsitepackages()[0]` when the function exists. -/
  sitePkgs : Option String := none
  /-- `os.path.expanduser("~")`. -/
  homeDir : String := "/root"
  /-- `os.environ["PATH"]`. -/
  envPath : String := "/usr/bin"
  /-- `self._use_poetry` (initialized `False` in `__init__`). -/
  usePoetry : Bool := false
  /-- `self._package_name` (initialized `""` in `__init__`). -/
  packageName : String := ""

/-- Result of running a piece of the script: normal return with a value, or
process termination through `sys.exit`. -/
inductive ER (α : Type) where
  | ok : α → World → ER α
  | exited : Nat → World → ER α

/-- Content of the named file of the working directory, when present
(`os.path.exists` + `open(...).read()` for relative paths). -/
def lookupFile (w : World) (name : String) : Option String :=
  (w.files.find? (fun p => p.1 == name)).map Prod.snd

/-- `open(name, "w").write(content)`: create or overwrite. -/
def fsWrite (w : World) (name content : String) : World :=
  { w with files := (name, content) :: w.files.filter (fun p => p.1 != name) }

/-- `Path(...).mkdir(parents=True, exist_ok=True)` / `os.makedirs(...,
exist_ok=True)`: record the directory. -/
def addDir (w : World) (d : String) : World :=
  if w.dirs.contains d then w else { w with dirs := w.dirs ++ [d] }

/-- `Path(...).touch(exist_ok=True)`: create the file empty if absent. -/
def touch (w : World) (name : String) : World :=
  if (lookupFile w name).isSome then w else fsWrite w name ""

/-- Plain `print`. -/
def printRaw (w : World) (s : String) : World :=
  { w with printed := w.printed ++ [s] }

/-- ANSI codes of the source (lines 14-16). -/
def GREEN : String := "\x1b[92m"

/-- Red ANSI code. -/
def RED : String := "\x1b[91m"

/-- Reset ANSI code. -/
def RESET : String := "\x1b[0m"

/-- `print_success` (lines 19-20). -/
def print_success (w : World) (msg : String) : World :=
  printRaw w (GREEN ++ "✅ " ++ msg ++ RESET)

/-- `print_error` (lines 23-24). -/
def print_error (w : World) (msg : String) : World :=
  printRaw w (RED ++ "❌ " ++ msg ++ RESET)

/-- `print_info` (lines 27-28). -/
def print_info (w : World) (msg : String) : World :=
  printRaw w ("👉 " ++ msg)

/-- `print_header` (lines 31-32). -/
def print_header (w : World) (msg : String) : World :=
  printRaw w ("\n🔎 " ++ msg ++ "\n" ++ String.mk (List.replicate 30 '='))

/-- `input(prompt)`: print the prompt, pop the next queued answer. -/
def readAnswer (w : World) (prompt : String) : String × World :=
  let w := { w with printed := w.printed ++ [prompt] }
  match w.stdinQ with
  | [] => ("", w)
  | a :: rest => (a, { w with stdinQ := rest })

/-- `subprocess.run(cmd, ...)`: record the argument vector, consume the
next oracle entry as (return code, captured stdout). -/
def runProc (w : World) (cmd : List String) : (Int × String) × World :=
  let w := { w with trace := w.trace ++ [cmd] }
  match w.oracle with
  | [] => ((0, ""), w)
  | r :: rest => (r, { w with oracle := rest })

/-- The `VENV` constant (line 11). -/
def VENV : String := ".venv"

/-! ## The `ProjectSetup` methods -/

/-- `_detect_project_tool` (lines 72-86): `None` without a manifest,
otherwise the marker scan of its text.  (The `except` branch for an
unreadable file also returns `None`; reads of present files succeed in this
model.) -/
def _detect_project_tool (w : World) : Option String :=
  match lookupFile w "pyproject.toml" with
  | none => none
  | some contents => detectToolText contents

/-- `_convert_requirements_to_poetry` (lines 88-96): empty block when
`requirements.txt` is absent, otherwise the line filter over its text. -/
def _convert_requirements_to_poetry (w : World) : String :=
  match lookupFile w "requirements.txt" with
  | none => ""
  | some content => convertRequirementsText content

/-- `_get_default_package_name` (lines 176-177). -/
def _get_default_package_name (w : World) : String :=
  pyReplaceChar (pyReplaceChar (pyLower w.cwdName) ' ' '_') '-' '_'

/-- `_get_git_config` (lines 179-186): `None` on a raised exception or a
non-zero return code, the stripped standard output otherwise.  The function
is total — no outcome of the subprocess reaches the caller as an error. -/
def _get_git_config (w : World) (key : String) : Option String :=
  match w.gitCfg key with
  | GitOutcome.exc => none
  | GitOutcome.ran rc out => if rc = 0 then some (pyStrip out) else none

/-- `_write_if_missing` (lines 195-202). -/
def _write_if_missing (w : World) (filename content : String) : World :=
  if (lookupFile w filename).isSome then
    print_success w (filename ++ " already exists.")
  else
    let w := print_info w (filename ++ " not found. Let\x27s create one.")
    let w := fsWrite w filename content
    print_success w (filename ++ " created.")

/-- `_setup_requirements` (lines 191-193). -/
def _setup_requirements (w : World) : World :=
  let w := _write_if_missing w "requirements.txt" "# project requirements"
  _write_if_missing w "requirements.dev.txt" (_strip_content _dev_requirements_content)

/-- `_create_pyproject_toml` (lines 98-171). -/
def _create_pyproject_toml (w : World) : World :=
  if (lookupFile w "pyproject.toml").isSome then
    print_success w "pyproject.toml already exists."
  else
    let w := print_info w "pyproject.toml not found. Let\x27s create one."
    let w := { w with packageName := _get_default_package_name w }
    let (nameIn, w) := readAnswer w ("Package name (default: " ++ w.packageName ++ "): ")
    let w := if nameIn ≠ "" then { w with packageName := packageNameTransform nameIn } else w
    afterNamePrompt w
where
  /-- Lines 109-171: everything after the package name is settled. -/
  afterNamePrompt (w : World) : World :=
    let (verIn, w) := readAnswer w "Package version (default: 0.1.0): "
    let ver := pyOr verIn "0.1.0"
    let (desc, w) := readAnswer w "Package description: "
    let an0 := pyOrOpt (_get_git_config w "user.name") "unnamed developer"
    let ae0 := pyOrOpt (_get_git_config w "user.email") "developer@example.com"
    let (anIn, w) := readAnswer w ("Author name (default: " ++ an0 ++ "): ")
    let an := pyOr anIn an0
    let (aeIn, w) := readAnswer w ("Author email (default: " ++ ae0 ++ "): ")
    let ae := pyOr aeIn ae0
    let w := addDir w ("src/" ++ w.packageName)
    let w := touch w ("src/" ++ w.packageName ++ "/__init__.py")
    if w.usePoetry then
      let depsBlock := _convert_requirements_to_poetry w
      let content := poetryContent w.packageName ver desc an ae (_indent_dependencies depsBlock)
      let w := fsWrite w "pyproject.toml" (_strip_content content)
      print_success w "pyproject.toml created."
    else
      let (bsIn, w) := readAnswer w "Build system (default: hatchling): "
      let bs := pyOr bsIn "hatchling"
      let content := hatchContent w.packageName ver desc an ae bs
      let w := addDir w "tests"
      let w := fsWrite w "pyproject.toml" (_strip_content content)
      print_success w "pyproject.toml created."

/-- `_detect_platform` (lines 40-70): OS classification with `sys.exit(1)`
on an unsupported system name, then project-tool detection or the
interactive pip/poetry prompt.  Returns the computed `os_type`. -/
def _detect_platform (w : World) : ER String :=
  let w := printRaw w "🧠 Detecting OS and architecture..."
  if w.sysname = "Darwin" then _detect_platform_rest w "mac"
  else if w.sysname = "Linux" then
    _detect_platform_rest w (if w.debianFileExists then "debian" else "linux")
  else
    ER.exited 1 (print_error w ("Unsupported OS: " ++ w.sysname))
where
  /-- Lines 54-70: the part after the supported-OS branch. -/
  _detect_platform_rest (w : World) (osType : String) : ER String :=
    let w := printRaw w ("📟 OS: " ++ osType ++ " | Architecture: " ++ w.machine)
    let pt := _detect_project_tool w
    if pt = some "poetry" then
      let w := { w with usePoetry := true }
      ER.ok osType (print_info w "Detected Poetry project from pyproject.toml.")
    else if pt = some "hatch" then
      let w := { w with usePoetry := false }
      ER.ok osType (print_info w "Detected Hatch project from pyproject.toml.")
    else if pt = some "flit" then
      let w := { w with usePoetry := false }
      ER.ok osType (print_info w "Detected Flit project from pyproject.toml.")
    else
      let (ans, w) := readAnswer w "📦 Do you want to use pip or poetry? (default: pip): "
      let pipOrPoetry := pyOr ans "pip"
      ER.ok osType { w with usePoetry := pyLower pipOrPoetry == "poetry" }

/-- Rendering of a raised `CalledProcessError` as interpolated into the
`f"... failed: {e}"` messages. -/
def cpeText (cmd : List String) (rc : Int) : String :=
  "Command " ++ String.intercalate " " cmd ++ " returned non-zero exit status " ++ toString rc ++ "."

/-- `get_list_of_requirements_files` (lines 265-266): names in the
script's own directory that start with `requirements` and end with
`.txt`. -/
def get_list_of_requirements_files (w : World) : List String :=
  w.scriptDirFiles.filter (fun f => pyStartsWith f "requirements" && pyEndsWith f ".txt")

/-- The `for req_file in ...` loop of `_setup_pip` (lines 255-257); a
`CalledProcessError` anywhere lands in the `except` of lines 261-263. -/
def installReqFiles : List String → World → ER Unit
  | [], w => ER.ok () w
  | f :: fs, w =>
    let w := printRaw w ("🔗 Installing packages from " ++ f ++ "...")
    let ((rc, _), w) := runProc w [VENV ++ "/bin/pip", "install", "-r", f, "--upgrade"]
    if rc ≠ 0 then
      ER.exited 1 (print_error w ("pip setup failed: " ++ cpeText [VENV ++ "/bin/pip", "install", "-r", f, "--upgrade"] rc))
    else installReqFiles fs w

/-- `_setup_pip` (lines 248-263). -/
def _setup_pip (w : World) : ER Unit :=
  let w := _create_pyproject_toml w
  let w := printRaw w ("🐍 Setting up Python virtual environment at " ++ VENV ++ "...")
  let ((rc1, _), w) := runProc w ["python3", "-m", "venv", VENV]
  if rc1 ≠ 0 then
    ER.exited 1 (print_error w ("pip setup failed: " ++ cpeText ["python3", "-m", "venv", VENV] rc1))
  else
    let ((rc2, _), w) := runProc w [VENV ++ "/bin/pip", "install", "--upgrade", "pip"]
    if rc2 ≠ 0 then
      ER.exited 1 (print_error w ("pip setup failed: " ++ cpeText [VENV ++ "/bin/pip", "install", "--upgrade", "pip"] rc2))
    else
      match installReqFiles (get_list_of_requirements_files w) w with
      | ER.exited c w => ER.exited c w
      | ER.ok _ w =>
        let w := printRaw w "🔗 Installing local package in editable mode..."
        let ((rc3, _), w) := runProc w [VENV ++ "/bin/pip", "install", "-e", "."]
        if rc3 ≠ 0 then
          ER.exited 1 (print_error w ("pip setup failed: " ++ cpeText [VENV ++ "/bin/pip", "install", "-e", "."] rc3))
        else ER.ok () w

/-- `_setup_poetry` (lines 227-246). -/
def _setup_poetry (w : World) : ER Unit :=
  let w := _create_pyproject_toml w
  let w := printRaw w "📚  Using Poetry for environment setup..."
  if !w.whichPoetry then
    let w := printRaw w "⬇️ Installing Poetry..."
    let ((rc0, _), w) := runProc w ["curl -sSL https://install.python-poetry.org | python3 -"]
    if rc0 ≠ 0 then
      ER.exited 1 (print_error w ("Poetry setup failed: " ++ cpeText ["curl -sSL https://install.python-poetry.org | python3 -"] rc0))
    else
      let w := { w with envPath := w.homeDir ++ "/.local/bin:" ++ w.envPath }
      _setup_poetry_verify w
  else _setup_poetry_verify w
where
  /-- Lines 236-246: version check and `poetry install`. -/
  _setup_poetry_verify (w : World) : ER Unit :=
    let ((rc, out), w) := runProc w ["poetry", "--version"]
    if rc ≠ 0 then
      ER.exited 1 (print_error w "Poetry installation failed.")
    else
      let w := print_success w (pyStrip out)
      let w := printRaw w "🔧 Creating virtual environment with Poetry..."
      let ((rc2, _), w) := runProc w ["poetry", "install"]
      if rc2 ≠ 0 then
        ER.exited 1 (print_error w ("Poetry setup failed: " ++ cpeText ["poetry", "install"] rc2))
      else ER.ok () w

/-- `is_virtual_environment` (lines 281-282). -/
def is_virtual_environment (w : World) : Bool :=
  w.sysPref != w.basePref.getD w.sysPref

/-- `print_env_info` (lines 268-279). -/
def print_env_info (w : World) : World :=
  let w := print_header w "Python Environment Info"
  let w := printRaw w ("📦 Python Version     : " ++ w.pythonVersion)
  let w := printRaw w ("🐍 Python Executable  : " ++ w.sysExecutable)
  let w := printRaw w ("📂 sys.prefix         : " ++ w.sysPref)
  let w := printRaw w ("📂 Base Prefix        : " ++ w.basePref.getD w.sysPref)
  let w := printRaw w ("🧠 site-packages path : " ++ (match w.sitePkgs with | some s => s | none => "N/A"))
  let inVenv := is_virtual_environment w
  let w := printRaw w ("✅ In Virtual Env     : " ++ (if inVenv then "Yes" else "No"))
  if inVenv then
    printRaw w ("📁 Virtual Env Name   : " ++ ((pySplit w.sysPref '/').filter (fun s => s != "")).getLastD "")
  else w

/-- `setup` (lines 218-225). -/
def setup (w : World) : ER Unit :=
  match _detect_platform w with
  | ER.exited c w => ER.exited c w
  | ER.ok _ w =>
    let w := _setup_requirements w
    match (if w.usePoetry then _setup_poetry w else _setup_pip w) with
    | ER.exited c w => ER.exited c w
    | ER.ok _ w =>
      let w := print_env_info w
      let w := printRaw w "\n🎉 Setup complete!"
      if !w.usePoetry then
        ER.ok () (printRaw w ("➡️  Run \x27source " ++ VENV ++ "/bin/activate\x27 to activate the virtual environment."))
      else ER.ok () w

/-! ## Character-level facts about ASCII lowercasing -/

/-- `Char.ofNat` at a valid codepoint recovers the codepoint. -/
theorem char_toNat_ofNat_valid (n : Nat) (h : n.isValidChar) : (Char.ofNat n).toNat = n := by
  rw [Char.ofNat, dif_pos h]
  rfl

/-- `Char.isUpper` in terms of the codepoint. -/
theorem char_isUpper_iff (c : Char) : c.isUpper = true ↔ 65 ≤ c.toNat ∧ c.toNat ≤ 90 := by
  simp only [Char.isUpper, Bool.and_eq_true, decide_eq_true_eq, ge_iff_le, UInt32.le_def]
  exact Iff.rfl

/-- Lowercasing never produces an uppercase ASCII letter. -/
theorem toLower_isUpper_false (c : Char) : (Char.toLower c).isUpper = false := by
  unfold Char.toLower
  by_cases h : c.toNat ≥ 65 ∧ c.toNat ≤ 90
  · simp only [if_pos h]
    have hvalid : Nat.isValidChar (c.toNat + 32) := Or.inl (by omega)
    have htn := char_toNat_ofNat_valid (c.toNat + 32) hvalid
    rw [Bool.eq_false_iff]
    intro hu
    rw [char_isUpper_iff, htn] at hu
    omega
  · simp only [if_neg h]
    rw [Bool.eq_false_iff]
    intro hu
    rw [char_isUpper_iff] at hu
    omega

/-- Lowercasing cannot hit a codepoint outside the letter ranges that was
not already there (in particular it cannot produce a space or a hyphen). -/
theorem toLower_toNat_ne (c : Char) (m : Nat) (hm : m < 65 ∨ 122 < m) (hc : c.toNat ≠ m) :
    (Char.toLower c).toNat ≠ m := by
  unfold Char.toLower
  by_cases h : c.toNat ≥ 65 ∧ c.toNat ≤ 90
  · simp only [if_pos h]
    have hvalid : Nat.isValidChar (c.toNat + 32) := Or.inl (by omega)
    rw [char_toNat_ofNat_valid (c.toNat + 32) hvalid]
    omega
  · simp only [if_neg h]
    exact hc

/-- Characters with distinct codepoints are distinct. -/
theorem char_ne_of_toNat_ne {c d : Char} (h : c.toNat ≠ d.toNat) : c ≠ d := by
  intro he
  exact h (by rw [he])

/-- Characters with equal codepoints are equal. -/
theorem char_eq_of_toNat_eq {c d : Char} (h : c.toNat = d.toNat) : c = d :=
  Char.eq_of_val_eq (UInt32.ext h)

/-! ## C6: default package name derivation -/

/-- C6: the computed default package name is the working directory's base
name transformed characterwise — lowercased, with every space and every
hyphen replaced by an underscore; in particular `"My Project"` yields
`"my_project"`. -/
theorem C6_default_package_name :
    (∀ w : World, (_get_default_package_name w).data =
      w.cwdName.data.map (fun c =>
        if c.toLower = ' ' then '_' else if c.toLower = '-' then '_' else c.toLower)) ∧
    _get_default_package_name { cwdName := "My Project" } = "my_project" := by
  constructor
  · intro w
    simp only [_get_default_package_name, pyReplaceChar, pyLower, List.map_map]
    apply List.map_congr_left
    intro c _
    simp only [Function.comp]
    by_cases h1 : c.toLower = ' '
    · simp [h1]
    · by_cases h2 : c.toLower = '-'
      · simp [h1, h2]
      · simp [h1, h2]
  · decide

/-! ## C10: interactive package-name normalization -/

/-- Composite characterwise action of
`input.replace(" ", "-").lower().replace("-", "_")`. -/
def pkgNameCharMap (c : Char) : Char :=
  if (if c = ' ' then '-' else c).toLower = '-' then '_'
  else (if c = ' ' then '-' else c).toLower

/-- A character produced by the package-name normalization is never a
space, a hyphen, or an uppercase ASCII letter. -/
theorem pkgNameCharMap_sane (c : Char) :
    pkgNameCharMap c ≠ ' ' ∧ pkgNameCharMap c ≠ '-' ∧ (pkgNameCharMap c).isUpper = false := by
  unfold pkgNameCharMap
  by_cases hs : c = ' '
  · simp [hs]
  · simp only [if_neg hs]
    by_cases hd : c.toLower = '-'
    · simp [hd]
    · simp only [if_neg hd]
      refine ⟨?_, hd, toLower_isUpper_false c⟩
      apply char_ne_of_toNat_ne
      apply toLower_toNat_ne c 32 (by omega)
      intro hc
      exact hs (char_eq_of_toNat_eq hc)

/-- Closed form of `readAnswer`: the answer is the head of the queue (or
`""`), the new world records the prompt and drops the head. -/
theorem readAnswer_eq (w : World) (p : String) :
    readAnswer w p =
      (w.stdinQ.headD "", { w with printed := w.printed ++ [p], stdinQ := w.stdinQ.tail }) := by
  cases h : w.stdinQ <;> simp [readAnswer, h]

/-- Closed form of `runProc`: the outcome is the head of the oracle (or
success), the new world records the command and drops the head. -/
theorem runProc_eq (w : World) (cmd : List String) :
    runProc w cmd =
      (w.oracle.headD (0, ""), { w with trace := w.trace ++ [cmd], oracle := w.oracle.tail }) := by
  cases h : w.oracle <;> simp [runProc, h]

/-- The part of `_create_pyproject_toml` after the name prompt never changes
the stored package name. -/
theorem afterNamePrompt_packageName (w : World) :
    (_create_pyproject_toml.afterNamePrompt w).packageName = w.packageName := by
  unfold _create_pyproject_toml.afterNamePrompt
  simp only [readAnswer_eq, touch, addDir, fsWrite, print_success, printRaw, lookupFile,
    apply_ite (World.packageName), ite_self]

/-- C10: a non-empty package-name answer is stored as the answer with each
space replaced by a hyphen, then lowercased, then each hyphen replaced by
an underscore (characterwise `pkgNameCharMap`); consequently the stored
name — hence the `src/<name>` directory and the manifest `name` field built
from it — contains no space, no hyphen, and no uppercase ASCII letter. -/
theorem C10_package_name_normalization :
    (∀ s : String, (packageNameTransform s).data = s.data.map pkgNameCharMap) ∧
    (∀ (s : String) (c : Char), c ∈ (packageNameTransform s).data →
      c ≠ ' ' ∧ c ≠ '-' ∧ c.isUpper = false) ∧
    (∀ (w : World) (s : String) (rest : List String),
      lookupFile w "pyproject.toml" = none → w.stdinQ = s :: rest → s ≠ "" →
      (_create_pyproject_toml w).packageName = packageNameTransform s) := by
  refine ⟨?_, ?_, ?_⟩
  · intro s
    simp only [packageNameTransform, pyReplaceChar, pyLower, List.map_map]
    apply List.map_congr_left
    intro c _
    rfl
  · intro s c hc
    have h1 : (packageNameTransform s).data = s.data.map pkgNameCharMap := by
      simp only [packageNameTransform, pyReplaceChar, pyLower, List.map_map]
      apply List.map_congr_left
      intro c _
      rfl
    rw [h1] at hc
    rcases List.mem_map.mp hc with ⟨a, _, rfl⟩
    exact pkgNameCharMap_sane a
  · intro w s rest hnone hq hne
    simp only [_create_pyproject_toml, hnone, Option.isSome_none, Bool.false_eq_true, if_false]
    rw [afterNamePrompt_packageName]
    simp only [readAnswer_eq, print_info, printRaw]
    simp [hq, hne]

/-- Witness for C10: a concrete prompt answer with a space, a hyphen and
capitals is stored in normalized form. -/
theorem C10_package_name_normalization_witness :
    (_create_pyproject_toml { stdinQ := ["My Nice-Pkg"] }).packageName =
      packageNameTransform "My Nice-Pkg" :=
  C10_package_name_normalization.2.2 { stdinQ := ["My Nice-Pkg"] } "My Nice-Pkg" [] rfl rfl
    (by decide)

/-! ## C1: idempotence on existing files -/

/-- C1: when `pyproject.toml` already exists, `_create_pyproject_toml`
leaves every file of the working directory unchanged and only reports that
the manifest exists; when the target of `_write_if_missing` already exists,
it likewise changes no file and only reports existence. -/
theorem C1_existing_files_preserved :
    (∀ (w : World) (c : String), lookupFile w "pyproject.toml" = some c →
      (_create_pyproject_toml w).files = w.files ∧
      (_create_pyproject_toml w).printed =
        w.printed ++ [GREEN ++ "✅ " ++ "pyproject.toml already exists." ++ RESET]) ∧
    (∀ (w : World) (fn ct c : String), lookupFile w fn = some c →
      (_write_if_missing w fn ct).files = w.files ∧
      (_write_if_missing w fn ct).printed =
        w.printed ++ [GREEN ++ "✅ " ++ (fn ++ " already exists.") ++ RESET]) := by
  constructor
  · intro w c h
    have hs : (lookupFile w "pyproject.toml").isSome = true := by rw [h]; rfl
    simp [_create_pyproject_toml, hs, print_success, printRaw]
  · intro w fn ct c h
    have hs : (lookupFile w fn).isSome = true := by rw [h]; rfl
    simp [_write_if_missing, hs, print_success, printRaw]

/-- Witness for C1 at concrete worlds: both no-op branches evaluated. -/
theorem C1_existing_files_preserved_witness :
    (_create_pyproject_toml { files := [("pyproject.toml", "x")] }).files =
      [("pyproject.toml", "x")] ∧
    (_write_if_missing { files := [("requirements.txt", "y")] } "requirements.txt"
      "# project requirements").files = [("requirements.txt", "y")] :=
  ⟨(C1_existing_files_preserved.1 { files := [("pyproject.toml", "x")] } "x" rfl).1,
   (C1_existing_files_preserved.2 { files := [("requirements.txt", "y")] }
      "requirements.txt" "# project requirements" "y" rfl).1⟩

/-! ## C2: marker-priority tool detection -/

/-- Priority order of recognized manifest markers (poetry before hatch
before flit), as a list. -/
def priorityToolMarkers : List (String × String) :=
  [("poetry", "[tool.poetry]"), ("hatch", "[tool.hatch]"), ("flit", "[tool.flit]")]

/-- Specification-side detection: the first tool in priority order whose
marker occurs anywhere in the manifest text. -/
def specToolOfManifest (contents : String) : Option String :=
  (priorityToolMarkers.find? (fun p => pyContains contents p.2)).map Prod.fst

/-- C2: the marker scan of `_detect_project_tool` selects exactly the first
matching marker in the priority order poetry, hatch, flit — position in the
file is irrelevant, only containment matters — and yields nothing when no
marker occurs (or when no manifest exists). -/
theorem C2_marker_priority :
    (∀ contents : String, detectToolText contents = specToolOfManifest contents) ∧
    (∀ (w : World) (c : String), lookupFile w "pyproject.toml" = some c →
      _detect_project_tool w = specToolOfManifest c) ∧
    (∀ w : World, lookupFile w "pyproject.toml" = none → _detect_project_tool w = none) := by
  have key : ∀ contents, detectToolText contents = specToolOfManifest contents := by
    intro contents
    simp only [detectToolText, specToolOfManifest, priorityToolMarkers]
    by_cases h1 : pyContains contents "[tool.poetry]" = true <;>
      by_cases h2 : pyContains contents "[tool.hatch]" = true <;>
        by_cases h3 : pyContains contents "[tool.flit]" = true <;>
          simp_all [List.find?]
  refine ⟨key, ?_, ?_⟩
  · intro w c h
    simp [_detect_project_tool, h, key]
  · intro w h
    simp [_detect_project_tool, h]

/-- Witness for C2: a manifest containing the flit marker before the hatch
marker is still detected as hatch (priority, not position). -/
theorem C2_marker_priority_witness :
    _detect_project_tool { files := [("pyproject.toml", "[tool.flit]\n[tool.hatch]")] } =
      some "hatch" :=
  (C2_marker_priority.2.1 { files := [("pyproject.toml", "[tool.flit]\n[tool.hatch]")] }
    "[tool.flit]\n[tool.hatch]" rfl).trans (by decide)

/-! ## C7: soft failure of the git identity lookup -/

/-- C7: `_get_git_config` is a total function of the recorded `git config`
outcome — an exception or a non-zero return code yields `none`, never an
error to the caller — and a `none` lookup makes the author name and email
offered by `_create_pyproject_toml` default to `"unnamed developer"` and
`"developer@example.com"` (the `or` fallbacks of lines 111-112). -/
theorem C7_git_lookup_soft_failure :
    (∀ (w : World) (key : String), w.gitCfg key = GitOutcome.exc →
      _get_git_config w key = none) ∧
    (∀ (w : World) (key : String) (rc : Int) (out : String),
      w.gitCfg key = GitOutcome.ran rc out → rc ≠ 0 → _get_git_config w key = none) ∧
    (∀ w : World, _get_git_config w "user.name" = none →
      pyOrOpt (_get_git_config w "user.name") "unnamed developer" = "unnamed developer") ∧
    (∀ w : World, _get_git_config w "user.email" = none →
      pyOrOpt (_get_git_config w "user.email") "developer@example.com" =
        "developer@example.com") := by
  refine ⟨?_, ?_, ?_, ?_⟩
  · intro w key h
    simp [_get_git_config, h]
  · intro w key rc out h hrc
    simp [_get_git_config, h, hrc]
  · intro w h
    rw [h]
    rfl
  · intro w h
    rw [h]
    rfl

/-- Witness for C7: the raising outcome, a non-zero outcome, and both
defaults, evaluated at concrete worlds. -/
theorem C7_git_lookup_soft_failure_witness :
    _get_git_config { gitCfg := fun _ => GitOutcome.exc } "user.name" = none ∧
    _get_git_config { gitCfg := fun _ => GitOutcome.ran 1 "" } "user.name" = none ∧
    pyOrOpt (_get_git_config { gitCfg := fun _ => GitOutcome.exc } "user.name")
      "unnamed developer" = "unnamed developer" ∧
    pyOrOpt (_get_git_config { gitCfg := fun _ => GitOutcome.exc } "user.email")
      "developer@example.com" = "developer@example.com" :=
  ⟨C7_git_lookup_soft_failure.1 _ "user.name" rfl,
   C7_git_lookup_soft_failure.2.1 _ "user.name" 1 "" rfl (by decide),
   C7_git_lookup_soft_failure.2.2.1 _ rfl,
   C7_git_lookup_soft_failure.2.2.2 _ rfl⟩

/-! ## C9: possible values of the returned os type -/

/-- Whether a run result returned normally. -/
def erIsOk {α : Type} : ER α → Bool
  | ER.ok _ _ => true
  | ER.exited _ _ => false

/-- The value of a normal run result (`""` after an exit). -/
def erStr : ER String → String
  | ER.ok a _ => a
  | ER.exited _ _ => ""

/-- `_detect_platform_rest` returns normally with exactly the os type it
was given. -/
theorem detect_platform_rest_erStr (w : World) (t : String) :
    erStr (_detect_platform._detect_platform_rest w t) = t ∧
    erIsOk (_detect_platform._detect_platform_rest w t) = true := by
  unfold _detect_platform._detect_platform_rest
  simp only [readAnswer_eq]
  repeat' split
  all_goals exact ⟨rfl, rfl⟩

/-- C9: whenever `_detect_platform` returns normally, the returned os type
is `"mac"`, `"debian"` or `"linux"`; the `"unknown"` placeholder can never
be returned. -/
theorem C9_os_type_values :
    ∀ w : World, erIsOk (_detect_platform w) = true →
      (erStr (_detect_platform w) = "mac" ∨ erStr (_detect_platform w) = "debian" ∨
        erStr (_detect_platform w) = "linux") ∧
      erStr (_detect_platform w) ≠ "unknown" := by
  intro w h
  unfold _detect_platform at h ⊢
  simp only [printRaw] at h ⊢
  by_cases hd : w.sysname = "Darwin"
  · rw [if_pos hd, (detect_platform_rest_erStr _ _).1]
    exact ⟨Or.inl rfl, by decide⟩
  · rw [if_neg hd] at h ⊢
    by_cases hl : w.sysname = "Linux"
    · rw [if_pos hl, (detect_platform_rest_erStr _ _).1]
      by_cases hdeb : w.debianFileExists = true
      · rw [if_pos hdeb]
        exact ⟨Or.inr (Or.inl rfl), by decide⟩
      · rw [if_neg hdeb]
        exact ⟨Or.inr (Or.inr rfl), by decide⟩
    · rw [if_neg hl] at h
      simp [erIsOk] at h

/-- Witness for C9: a Darwin world returns normally with os type `"mac"`. -/
theorem C9_os_type_values_witness :
    (erStr (_detect_platform { sysname := "Darwin" }) = "mac" ∨
      erStr (_detect_platform { sysname := "Darwin" }) = "debian" ∨
      erStr (_detect_platform { sysname := "Darwin" }) = "linux") ∧
    erStr (_detect_platform { sysname := "Darwin" }) ≠ "unknown" :=
  C9_os_type_values { sysname := "Darwin" } rfl

/-! ## C8: environment-reporter sentinel -/

/-- A string cannot start with a marker whose first character differs from
its own first character. -/
theorem pyStartsWith_ne_head (a b : String) (c d : Char) (ta tb : List Char)
    (ha : a.data = c :: ta) (hb : b.data = d :: tb) (h : (d == c) = false) :
    pyStartsWith a b ≠ true := by
  unfold pyStartsWith
  rw [ha, hb]
  simp [List.isPrefixOf, h]

/-- The six diagnostic lines printed before the virtual-environment verdict. -/
def envInfoCommonLines (w : World) : List String :=
  ["\n🔎 Python Environment Info\n" ++ String.mk (List.replicate 30 '='),
   "📦 Python Version     : " ++ w.pythonVersion,
   "🐍 Python Executable  : " ++ w.sysExecutable,
   "📂 sys.prefix         : " ++ w.sysPref,
   "📂 Base Prefix        : " ++ w.basePref.getD w.sysPref,
   "🧠 site-packages path : " ++ (match w.sitePkgs with | some s => s | none => "N/A")]

set_option maxHeartbeats 1600000 in
/-- C8: when the interpreter prefix equals its base prefix the reporter
prints `In Virtual Env: No` and adds no line marked as a virtual-environment
name; when they differ it prints `Yes` immediately followed by a line naming
the prefix directory's base name. -/
theorem C8_env_sentinel :
    (∀ w : World, w.sysPref = w.basePref.getD w.sysPref →
      (print_env_info w).printed =
        w.printed ++ envInfoCommonLines w ++ ["✅ In Virtual Env     : No"] ∧
      ∀ s ∈ (print_env_info w).printed, pyStartsWith s "📁" = true → s ∈ w.printed) ∧
    (∀ w : World, w.sysPref ≠ w.basePref.getD w.sysPref →
      (print_env_info w).printed =
        w.printed ++ envInfoCommonLines w ++
          ["✅ In Virtual Env     : Yes",
           "📁 Virtual Env Name   : " ++
             ((pySplit w.sysPref '/').filter (fun s => s != "")).getLastD ""]) := by
  constructor
  · intro w h
    have hb : (w.sysPref != w.basePref.getD w.sysPref) = false := by
      rw [← h]
      exact bne_self_eq_false _
    have heq : (print_env_info w).printed =
        w.printed ++ envInfoCommonLines w ++ ["✅ In Virtual Env     : No"] := by
      unfold print_env_info is_virtual_environment
      simp only [print_header, printRaw]
      simp [hb, envInfoCommonLines]
    refine ⟨heq, ?_⟩
    intro s hs hstart
    rw [heq] at hs
    rcases List.mem_append.mp hs with hs' | hs'
    · rcases List.mem_append.mp hs' with hs'' | hs''
      · exact hs''
      · exfalso
        simp only [envInfoCommonLines, List.mem_cons, List.not_mem_nil, or_false] at hs''
        rcases hs'' with rfl | rfl | rfl | rfl | rfl | rfl
        · exact pyStartsWith_ne_head _ _ '\n' '📁' _ _ rfl rfl (by decide) hstart
        · exact pyStartsWith_ne_head _ _ '📦' '📁' _ _ rfl rfl (by decide) hstart
        · exact pyStartsWith_ne_head _ _ '🐍' '📁' _ _ rfl rfl (by decide) hstart
        · exact pyStartsWith_ne_head _ _ '📂' '📁' _ _ rfl rfl (by decide) hstart
        · exact pyStartsWith_ne_head _ _ '📂' '📁' _ _ rfl rfl (by decide) hstart
        · exact pyStartsWith_ne_head _ _ '🧠' '📁' _ _ rfl rfl (by decide) hstart
    · exfalso
      simp only [List.mem_singleton] at hs'
      subst hs'
      exact pyStartsWith_ne_head _ _ '✅' '📁' _ _ rfl rfl (by decide) hstart
  · intro w h
    have hb : (w.sysPref != w.basePref.getD w.sysPref) = true := bne_iff_ne.mpr h
    unfold print_env_info is_virtual_environment
    simp only [print_header, printRaw]
    simp [hb, envInfoCommonLines]

/-- Witness for C8: both verdicts evaluated at concrete worlds. -/
theorem C8_env_sentinel_witness :
    (∀ s ∈ (print_env_info { sysPref := "/usr", basePref := some "/usr" }).printed,
      pyStartsWith s "📁" = true → s ∈ ([] : List String)) ∧
    (print_env_info { sysPref := "/venvs/demo", basePref := some "/usr" }).printed =
      [] ++ envInfoCommonLines { sysPref := "/venvs/demo", basePref := some "/usr" } ++
        ["✅ In Virtual Env     : Yes", "📁 Virtual Env Name   : " ++ "demo"] := by
  constructor
  · exact (C8_env_sentinel.1 { sysPref := "/usr", basePref := some "/usr" } rfl).2
  · exact (C8_env_sentinel.2 { sysPref := "/venvs/demo", basePref := some "/usr" }
      (by decide)).trans (by decide)

/-! ## C3: unsupported OS aborts before any file operation -/

/-- C3: when the system name is neither `Darwin` nor `Linux`, `setup` exits
with status 1, the working directory's files are exactly as before, and the
unsupported-OS error has been printed. -/
theorem C3_unsupported_os_aborts :
    ∀ w : World, w.sysname ≠ "Darwin" → w.sysname ≠ "Linux" →
      ∃ w' : World, setup w = ER.exited 1 w' ∧ w'.files = w.files ∧
        (RED ++ "❌ " ++ ("Unsupported OS: " ++ w.sysname) ++ RESET) ∈ w'.printed := by
  intro w h1 h2
  unfold setup _detect_platform
  simp only [printRaw, print_error]
  rw [if_neg h1, if_neg h2]
  refine ⟨_, rfl, rfl, ?_⟩
  simp

/-- Witness for C3: a Windows world aborts with the files untouched. -/
theorem C3_unsupported_os_aborts_witness :
    ∃ w' : World, setup { sysname := "Windows" } = ER.exited 1 w' ∧
      w'.files = World.files { sysname := "Windows" } ∧
      (RED ++ "❌ " ++ ("Unsupported OS: " ++ World.sysname { sysname := "Windows" }) ++ RESET)
        ∈ w'.printed :=
  C3_unsupported_os_aborts { sysname := "Windows" } (by decide) (by decide)

/-! ## C4: dependency parsing — list-level groundwork -/

/-- The head surviving `dropWhile` fails the predicate. -/
theorem dropWhile_head_not {A : Type} (p : A → Bool) (l : List A) :
    ∀ (a : A) (as : List A), l.dropWhile p = a :: as → p a = false := by
  induction l with
  | nil =>
    intro a as h
    simp at h
  | cons c cs ih =>
    intro a as h
    rw [List.dropWhile_cons] at h
    by_cases hc : p c = true
    · rw [if_pos hc] at h
      exact ih a as h
    · rw [if_neg hc] at h
      injection h with h1 h2
      rw [← h1]
      exact Bool.eq_false_iff.mpr hc

/-- `dropWhile` is idempotent. -/
theorem dropWhile_idem {A : Type} (p : A → Bool) (l : List A) :
    (l.dropWhile p).dropWhile p = l.dropWhile p := by
  cases h : l.dropWhile p with
  | nil => rfl
  | cons a as =>
    have ha := dropWhile_head_not p l a as h
    rw [List.dropWhile_cons]
    simp [ha]

/-- Stripping only removes characters. -/
theorem mem_of_mem_pyStripL {c : Char} {l : List Char} (h : c ∈ pyStripL l) : c ∈ l := by
  unfold pyStripL at h
  rw [List.mem_reverse] at h
  have h1 := (List.dropWhile_sublist (l := (l.dropWhile pyIsSpace).reverse) pyIsSpace).subset h
  rw [List.mem_reverse] at h1
  exact (List.dropWhile_sublist (l := l) pyIsSpace).subset h1

/-- Stripping is idempotent. -/
theorem pyStripL_idem (l : List Char) : pyStripL (pyStripL l) = pyStripL l := by
  have h1 : (pyStripL l).dropWhile pyIsSpace = pyStripL l := by
    cases hRev : pyStripL l with
    | nil => rfl
    | cons b bs =>
      have hsuf : (l.dropWhile pyIsSpace).reverse.dropWhile pyIsSpace <:+
          (l.dropWhile pyIsSpace).reverse := List.dropWhile_suffix pyIsSpace
      have hpre : pyStripL l <+: l.dropWhile pyIsSpace := by
        have h2 := List.reverse_prefix.mpr hsuf
        rwa [List.reverse_reverse] at h2
      obtain ⟨t, ht⟩ := hpre
      rw [hRev, List.cons_append] at ht
      have hb : pyIsSpace b = false :=
        dropWhile_head_not pyIsSpace l b (bs ++ t) ht.symm
      rw [List.dropWhile_cons]
      simp [hb]
  show ((((pyStripL l).dropWhile pyIsSpace).reverse).dropWhile pyIsSpace).reverse = pyStripL l
  rw [h1]
  show (((((l.dropWhile pyIsSpace).reverse.dropWhile pyIsSpace).reverse).reverse).dropWhile
    pyIsSpace).reverse = pyStripL l
  rw [List.reverse_reverse, dropWhile_idem]
  rfl

/-- Splitting never yields an empty list of fields. -/
theorem splitOnChar_ne_nil (sep : Char) (l : List Char) : splitOnChar sep l ≠ [] := by
  induction l with
  | nil => simp [splitOnChar]
  | cons c cs ih =>
    unfold splitOnChar
    by_cases h : c = sep
    · simp [h]
    · rw [if_neg h]
      cases hs : splitOnChar sep cs with
      | nil => simp
      | cons a as => simp

/-- No field produced by splitting contains the separator. -/
theorem not_mem_splitOnChar (sep : Char) (l : List Char) :
    ∀ x ∈ splitOnChar sep l, sep ∉ x := by
  induction l with
  | nil =>
    intro x hx
    simp [splitOnChar] at hx
    simp [hx]
  | cons c cs ih =>
    intro x hx
    unfold splitOnChar at hx
    by_cases h : c = sep
    · rw [if_pos h] at hx
      rcases List.mem_cons.mp hx with rfl | hx'
      · simp
      · exact ih x hx'
    · rw [if_neg h] at hx
      cases hs : splitOnChar sep cs with
      | nil => exact absurd hs (splitOnChar_ne_nil sep cs)
      | cons a as =>
        rw [hs] at hx
        rcases List.mem_cons.mp hx with rfl | hx'
        · intro hmem
          rcases List.mem_cons.mp hmem with heq | hmem'
          · exact h heq.symm
          · exact ih a (by rw [hs]; exact List.mem_cons_self a as) hmem'
        · exact ih x (by rw [hs]; exact List.mem_cons_of_mem a hx')

/-- Splitting a separator-free list gives that single field. -/
theorem splitOnChar_sepFree (sep : Char) (x : List Char) (hx : sep ∉ x) :
    splitOnChar sep x = [x] := by
  induction x with
  | nil => rfl
  | cons c cs ih =>
    have hc : ¬ c = sep := fun h => hx (List.mem_cons.mpr (Or.inl h.symm))
    unfold splitOnChar
    rw [if_neg hc, ih (fun h => hx (List.mem_cons_of_mem _ h))]

/-- Splitting a list that starts with a separator-free field followed by a
separator peels off that field. -/
theorem splitOnChar_append_sep (sep : Char) (x r : List Char) (hx : sep ∉ x) :
    splitOnChar sep (x ++ sep :: r) = x :: splitOnChar sep r := by
  induction x with
  | nil => simp [splitOnChar]
  | cons c cs ih =>
    have hc : ¬ c = sep := fun h => hx (List.mem_cons.mpr (Or.inl h.symm))
    have ih2 := ih (fun h => hx (List.mem_cons_of_mem _ h))
    rw [List.cons_append]
    rw [splitOnChar]
    rw [if_neg hc, ih2]

/-- Splitting undoes joining on non-empty lists of separator-free fields. -/
theorem splitOnChar_joinChar (sep : Char) :
    ∀ ds : List (List Char), ds ≠ [] → (∀ d ∈ ds, sep ∉ d) →
      splitOnChar sep (joinChar sep ds) = ds
  | [], h, _ => absurd rfl h
  | [d], _, hsep =>
    splitOnChar_sepFree sep d (hsep d (List.mem_cons_self _ _))
  | d :: d2 :: rest, _, hsep => by
    have hj : joinChar sep (d :: d2 :: rest) = d ++ sep :: joinChar sep (d2 :: rest) := rfl
    rw [hj, splitOnChar_append_sep sep d _ (hsep d (List.mem_cons_self _ _)),
      splitOnChar_joinChar sep (d2 :: rest) (by simp)
        (fun x hx => hsep x (List.mem_cons_of_mem _ hx))]

/-- The stripped, non-empty, non-comment lines of a requirements file: the
dependency list collected by `_convert_requirements_to_poetry`. -/
def reqLines (content : String) : List String :=
  ((pySplit content '\n').map pyStrip).filter (fun l => l != "" && !(pyStartsWith l "#"))

/-- Each collected dependency line is non-empty, already stripped, and free
of newline characters. -/
theorem reqLines_props (content : String) :
    ∀ d ∈ reqLines content, d ≠ "" ∧ pyStrip d = d ∧ '\n' ∉ d.data := by
  intro d hd
  unfold reqLines at hd
  have hmem := List.mem_of_mem_filter hd
  have hcond := List.of_mem_filter hd
  rcases List.mem_map.mp hmem with ⟨e, he, rfl⟩
  rcases List.mem_map.mp (show e ∈ (splitOnChar '\n' content.data).map String.mk from he)
    with ⟨x, hx, rfl⟩
  refine ⟨?_, ?_, ?_⟩
  · intro hnil
    rw [hnil] at hcond
    simp at hcond
  · show pyStrip (pyStrip (String.mk x)) = pyStrip (String.mk x)
    exact congrArg String.mk (pyStripL_idem x)
  · intro hn
    have hn' : ('\n' : Char) ∈ x := mem_of_mem_pyStripL hn
    exact not_mem_splitOnChar '\n' content.data x hx hn'

/-- Indenting distributes over a joined block of well-formed dependency
lines: each line gets exactly one four-space indent and none is dropped or
added. -/
theorem indent_join (ds : List String)
    (h : ∀ d ∈ ds, d ≠ "" ∧ pyStrip d = d ∧ '\n' ∉ d.data) :
    _indent_dependencies (pyJoin '\n' ds) = pyJoin '\n' (ds.map (fun d => "    " ++ d)) := by
  unfold _indent_dependencies
  congr 1
  cases ds with
  | nil => rfl
  | cons d rest =>
    have hsplit : pySplit (pyJoin '\n' (d :: rest)) '\n' = d :: rest := by
      unfold pySplit pyJoin
      rw [show (String.mk (joinChar '\n' ((d :: rest).map String.data))).data =
        joinChar '\n' ((d :: rest).map String.data) from rfl]
      rw [splitOnChar_joinChar '\n' ((d :: rest).map String.data) (by simp) ?hfree]
      case hfree =>
        intro x hx
        rcases List.mem_map.mp hx with ⟨e, he, rfl⟩
        exact fun hc => ((h e he).2.2 hc)
      rw [List.map_map]
      have hid : ∀ x ∈ (d :: rest), (String.mk ∘ String.data) x = x := fun x _ => rfl
      rw [List.map_congr_left hid]
      simp
    rw [hsplit]
    rw [List.filter_eq_self.mpr ?_]
    intro a ha
    rcases h a ha with ⟨hne, hstrip, _⟩
    rw [hstrip]
    exact bne_iff_ne.mpr hne

/-- C4: the dependency block written into the Poetry manifest consists of
exactly the stripped, non-empty, non-comment lines of the base requirements
file, each indented by four spaces, in order; on the content
`"\nrequests>=2\n# comment\n\nflask\n"` the block is exactly the two
indented entries `requests>=2` and `flask`. -/
theorem C4_dependency_parsing :
    (∀ content : String,
      _indent_dependencies (convertRequirementsText content) =
        pyJoin '\n' ((reqLines content).map (fun d => "    " ++ d))) ∧
    _indent_dependencies (convertRequirementsText "\nrequests>=2\n# comment\n\nflask\n") =
      "    requests>=2\n    flask" ∧
    pySplit (_indent_dependencies (convertRequirementsText "\nrequests>=2\n# comment\n\nflask\n"))
      '\n' = ["    requests>=2", "    flask"] := by
  refine ⟨?_, by decide, by decide⟩
  intro content
  have hconv : convertRequirementsText content = pyJoin '\n' (reqLines content) := rfl
  rw [hconv]
  exact indent_join (reqLines content) (reqLines_props content)

/-! ## C5: which requirements files the pip strategy installs -/

/-- The world carried by a run result. -/
def erWorld {A : Type} : ER A → World
  | ER.ok _ w => w
  | ER.exited _ w => w

/-- The requirements file named by a recorded subprocess, when that
subprocess is a `pip install -r <file> --upgrade` invocation of the
virtual environment's pip. -/
def pipTarget (cmd : List String) : Option String :=
  match cmd with
  | [p, i, r, f, u] =>
    if p = VENV ++ "/bin/pip" ∧ i = "install" ∧ r = "-r" ∧ u = "--upgrade" then some f else none
  | _ => none

/-- All requirements files installed according to a subprocess trace. -/
def pipReqInstallTargets (tr : List (List String)) : List String :=
  tr.filterMap pipTarget

/-- `afterNamePrompt` spawns no subprocess and looks at no directory
listing: trace, oracle and script-directory listing are untouched. -/
theorem afterNamePrompt_effects (w : World) :
    (_create_pyproject_toml.afterNamePrompt w).trace = w.trace ∧
    (_create_pyproject_toml.afterNamePrompt w).oracle = w.oracle ∧
    (_create_pyproject_toml.afterNamePrompt w).scriptDirFiles = w.scriptDirFiles := by
  refine ⟨?_, ?_, ?_⟩ <;>
    (unfold _create_pyproject_toml.afterNamePrompt
     simp only [readAnswer_eq, touch, addDir, fsWrite, print_success, printRaw, lookupFile,
       apply_ite (World.trace), apply_ite (World.oracle), apply_ite (World.scriptDirFiles),
       ite_self])

/-- `_create_pyproject_toml` spawns no subprocess and looks at no directory
listing. -/
theorem create_pyproject_effects (w : World) :
    (_create_pyproject_toml w).trace = w.trace ∧
    (_create_pyproject_toml w).oracle = w.oracle ∧
    (_create_pyproject_toml w).scriptDirFiles = w.scriptDirFiles := by
  refine ⟨?_, ?_, ?_⟩ <;> unfold _create_pyproject_toml <;> split
  · rfl
  · rw [(afterNamePrompt_effects _).1]
    simp only [readAnswer_eq, print_info, printRaw, apply_ite (World.trace), ite_self]
  · rfl
  · rw [(afterNamePrompt_effects _).2.1]
    simp only [readAnswer_eq, print_info, printRaw, apply_ite (World.oracle), ite_self]
  · rfl
  · rw [(afterNamePrompt_effects _).2.2]
    simp only [readAnswer_eq, print_info, printRaw, apply_ite (World.scriptDirFiles), ite_self]

/-- With an exhausted oracle (all subprocesses succeed), the install loop
runs one `pip install -r <file> --upgrade` per listed file, in order. -/
theorem installReqFiles_all_ok :
    ∀ (fs : List String) (w : World), w.oracle = [] →
      installReqFiles fs w = ER.ok ()
        { w with
          printed := w.printed ++ fs.map (fun f => "🔗 Installing packages from " ++ f ++ "..."),
          trace := w.trace ++
            fs.map (fun f => [VENV ++ "/bin/pip", "install", "-r", f, "--upgrade"]) } := by
  intro fs
  induction fs with
  | nil =>
    intro w h
    simp [installReqFiles]
  | cons f rest ih =>
    intro w h
    unfold installReqFiles
    simp only [printRaw, runProc_eq, h, List.headD_nil, List.tail_nil]
    split
    · next hrc => exact absurd rfl hrc
    · rw [ih _ rfl]
      simp [List.append_assoc]

/-- The extractor sees exactly the `-r` installs: it distributes over
appends, ignores the other three pip-strategy commands, and recovers the
file list from the loop's commands. -/
theorem pipReqInstallTargets_facts :
    (∀ t1 t2 : List (List String), pipReqInstallTargets (t1 ++ t2) =
      pipReqInstallTargets t1 ++ pipReqInstallTargets t2) ∧
    (∀ fs : List String, pipReqInstallTargets
      (fs.map (fun f => [VENV ++ "/bin/pip", "install", "-r", f, "--upgrade"])) = fs) := by
  constructor
  · intro t1 t2
    exact List.filterMap_append t1 t2 pipTarget
  · intro fs
    unfold pipReqInstallTargets
    rw [List.filterMap_map]
    have hpt : ∀ f : String,
        (pipTarget ∘ fun f => [VENV ++ "/bin/pip", "install", "-r", f, "--upgrade"]) f =
          some f := by
      intro f
      show (if VENV ++ "/bin/pip" = VENV ++ "/bin/pip" ∧ "install" = "install" ∧
          "-r" = "-r" ∧ "--upgrade" = "--upgrade" then some f else none) = some f
      rw [if_pos ⟨rfl, rfl, rfl, rfl⟩]
    rw [funext hpt]
    induction fs with
    | nil => rfl
    | cons f rest ih => simp [List.filterMap_cons, ih]

/-- C5 (amended): with every subprocess succeeding, the pip strategy's
subprocess trace is exactly venv creation, pip upgrade, one
`pip install -r <file> --upgrade` for each file of the script's own
directory whose name starts with `requirements` and ends with `.txt`
(in listing order), and the editable install; hence the set of requirements
files installed is exactly that filter of the script-directory listing —
not of the working directory. -/
theorem C5_pip_installs_script_dir_requirements :
    ∀ w : World, w.oracle = [] →
      (erWorld (_setup_pip w)).trace =
        w.trace ++ [["python3", "-m", "venv", VENV],
          [VENV ++ "/bin/pip", "install", "--upgrade", "pip"]] ++
          (w.scriptDirFiles.filter
            (fun f => pyStartsWith f "requirements" && pyEndsWith f ".txt")).map
            (fun f => [VENV ++ "/bin/pip", "install", "-r", f, "--upgrade"]) ++
          [[VENV ++ "/bin/pip", "install", "-e", "."]] ∧
      pipReqInstallTargets (erWorld (_setup_pip w)).trace =
        pipReqInstallTargets w.trace ++
          w.scriptDirFiles.filter
            (fun f => pyStartsWith f "requirements" && pyEndsWith f ".txt") := by
  intro w hor
  obtain ⟨htr, horc, hsd⟩ := create_pyproject_effects w
  have hfirst : (erWorld (_setup_pip w)).trace =
      w.trace ++ [["python3", "-m", "venv", VENV],
        [VENV ++ "/bin/pip", "install", "--upgrade", "pip"]] ++
        (w.scriptDirFiles.filter
          (fun f => pyStartsWith f "requirements" && pyEndsWith f ".txt")).map
          (fun f => [VENV ++ "/bin/pip", "install", "-r", f, "--upgrade"]) ++
        [[VENV ++ "/bin/pip", "install", "-e", "."]] := by
    unfold _setup_pip
    simp only [printRaw, runProc_eq, horc, hor, List.headD_nil, List.tail_nil]
    rw [installReqFiles_all_ok _ _ rfl]
    simp only [printRaw, runProc_eq, List.headD_nil, List.tail_nil]
    repeat' split
    all_goals try (exact absurd rfl ‹(0 : Int) ≠ 0›)
    simp [erWorld, htr, hsd, get_list_of_requirements_files, List.append_assoc]
  refine ⟨hfirst, ?_⟩
  rw [hfirst]
  rw [pipReqInstallTargets_facts.1, pipReqInstallTargets_facts.1, pipReqInstallTargets_facts.1]
  rw [pipReqInstallTargets_facts.2]
  rw [show pipReqInstallTargets [["python3", "-m", "venv", VENV],
        [VENV ++ "/bin/pip", "install", "--upgrade", "pip"]] = [] from rfl,
      show pipReqInstallTargets [[VENV ++ "/bin/pip", "install", "-e", "."]] = [] from rfl]
  simp

/-- Witness for C5 (amended): a world whose script directory lists one
matching and one non-matching name produces exactly one `-r` install. -/
theorem C5_pip_installs_script_dir_requirements_witness :
    pipReqInstallTargets (erWorld (_setup_pip
      { files := [("pyproject.toml", "x")],
        scriptDirFiles := ["requirements.txt", "README.md"] })).trace =
      pipReqInstallTargets
        (World.trace { files := [("pyproject.toml", "x")],
                       scriptDirFiles := ["requirements.txt", "README.md"] }) ++
        (World.scriptDirFiles { files := [("pyproject.toml", "x")],
                                scriptDirFiles := ["requirements.txt", "README.md"] }).filter
          (fun f => pyStartsWith f "requirements" && pyEndsWith f ".txt") :=
  (C5_pip_installs_script_dir_requirements
    { files := [("pyproject.toml", "x")],
      scriptDirFiles := ["requirements.txt", "README.md"] } rfl).2

/-- Counterexample for C5 as stated: in a working directory that contains
`requirements.extra.txt` while the script's own directory lists nothing,
the pip strategy installs no requirements file at all, so the installed set
is not the set of matching working-directory files. -/
theorem C5_counterexample :
    pipReqInstallTargets (erWorld (_setup_pip
      { files := [("pyproject.toml", "x"), ("requirements.extra.txt", "y")],
        scriptDirFiles := [] })).trace ≠
      ((World.files { files := [("pyproject.toml", "x"), ("requirements.extra.txt", "y")],
                      scriptDirFiles := [] }).map Prod.fst).filter
        (fun f => pyStartsWith f "requirements" && pyEndsWith f ".txt") := by
  decide

end PySetup
